import Mathlib

/-!
Verification of the batched scoring-run pipeline in
`arthur_bench/run/testsuite.py` (`TestSuite.__init__` and `TestSuite.run`).

The embedding is a shallow one: the Python methods become pure Lean
functions that return the Python result (the constructed object, the
returned `TestRun`, or the raised exception as an `Except.error`) paired
with the ordered trace of effects performed against the persistence layer
and the scoring-method interface.  External collaborators (the persistence
lookup, CSV reading, the scoring backend) are taken as parameters, so the
theorems quantify over their behaviour.
-/

set_option autoImplicit false

namespace ArthurBench

universe u v

/-- One evaluation unit: an input text and an optional reference output text
(`arthur_bench.models.models.TestCaseRequest`, as consumed by `testsuite.py`). -/
structure TestCase where
  input : String
  reference_output : Option String
deriving DecidableEq, Repr

/-- The scoring-method identifiers `run/testsuite.py` branches on:
`ScoringEnum.QACorrectness` is special-cased in `__init__`; every other
member behaves uniformly there. -/
inductive ScoringEnum where
  | QACorrectness : ScoringEnum
  | otherMethod : String → ScoringEnum
deriving DecidableEq, Repr

/-- The persisted suite document (`TestSuiteRequest`): name, scoring method,
optional description and the ordered test cases.  The metadata stamped by
`_initialize_metadata` (timestamps) is external glue and not modelled. -/
structure TestSuiteRequest where
  name : String
  scoring_method : ScoringEnum
  description : Option String
  test_cases : List TestCase
deriving DecidableEq, Repr

/-- One scored candidate output (`TestCaseOutput`), with the score type kept
abstract: the pipeline only moves scores around, never inspects them. -/
structure TestCaseOutput (α : Type u) where
  output : String
  score : α
deriving DecidableEq, Repr

/-- Handle of a run directory created by `_create_run_dir(suite_name, run_name)`. -/
structure RunDir where
  suiteName : String
  runName : String
deriving DecidableEq, Repr

/-- The assembled result of one scoring pass (`arthur_bench.run.testrun.TestRun`):
name, ordered outputs, verbatim provenance fields and the optional run
directory. -/
structure TestRun (α : Type u) where
  name : String
  test_case_outputs : List (TestCaseOutput α)
  model_name : Option String
  model_version : Option String
  foundation_model : Option String
  prompt_template : Option String
  run_dir : Option RunDir
deriving DecidableEq, Repr

/-- The pluggable scoring backend: `run_batch(references, candidates, inputs,
context=None)` returns one score per element or raises (`Except.error`).
`none` for the context argument is the three-argument call of the interface;
`some` is the four-argument call. -/
structure ScoringMethod (ε : Type u) (α : Type v) where
  run_batch : List (Option String) → List String → List String →
    Option (List String) → Except ε (List α)

/-- Exceptions that can escape the `try` block of `TestSuite.run`: the
`ValueError` that Python's `range(0, n, 0)` raises for a zero step, or an
exception raised by `ScoringMethod.run_batch`. -/
inductive BatchExc (ε : Type u) where
  | valueError : String → BatchExc ε
  | scoringExc : ε → BatchExc ε
deriving DecidableEq, Repr

/-- Exceptions raised by `TestSuite.run` itself: `UserValueError` on
candidate-count mismatch, or `ArthurInternalError` wrapping the cause that
aborted the batch loop. -/
inductive RunError (ε : Type u) where
  | userValue : String → RunError ε
  | arthurInternal : String → BatchExc ε → RunError ε
deriving DecidableEq, Repr

/-- `UserInputError` raised by the suite builder when no data source is usable. -/
structure UserInputError where
  msg : String
deriving DecidableEq, Repr

/-- Effects `TestSuite.run` performs, in order, against the persistence layer,
the logger and the scoring interface. -/
inductive Event (ε : Type u) where
  | createRunDir : String → String → Event ε
  | scoreCall : List (Option String) → List String → List String →
      Option (List String) → Event ε
  | logError : BatchExc ε → Event ε
  | cleanUpRun : RunDir → Event ε
  | saveSuite : String → Event ε
  | saveRun : Option RunDir → Event ε
deriving DecidableEq, Repr

/-- Effect of `TestSuite.__init__`: creation of the suite directory. -/
inductive SuiteEvent where
  | createSuiteDir : String → SuiteEvent
deriving DecidableEq, Repr

/-- Python list slice `l[i : i + n]` for nonnegative `i`, `n`. -/
def pySlice {γ : Type u} (l : List γ) (i n : Nat) : List γ :=
  (l.drop i).take n

variable {ε : Type u} {α : Type v}

/-- The chunk loop of `TestSuite.run` (testsuite.py lines 132-153):
`for i in range(0, len(self.suite.test_cases), batch_size)`.  `range` with a
zero step raises `ValueError` before any iteration; a positive step visits
`i = 0, bs, 2*bs, ...` while `i < len`.  Each iteration slices cases,
candidates and (when present) context with the same boundaries
`[i : i + bs]`, calls `run_batch` once, and extends the score accumulator;
an exception from `run_batch` aborts the loop.  Returns the accumulated
scores (or the escaping exception) together with the trace of scoring
calls.  The first numeric argument is recursion fuel: the loop advances by
at least one test case per iteration, so any fuel exceeding
`test_cases.length - i` makes the fuel bound unreachable
(`scoreChunks_fuel_irrelevant`); `batchPhase` supplies such fuel. -/
def scoreChunks (sm : ScoringMethod ε α) (test_cases : List TestCase)
    (candidate_output_list : List String) (context_list : Option (List String))
    (bs : Nat) : Nat → Nat → Except (BatchExc ε) (List α) × List (Event ε)
  | 0, _ => (Except.ok [], [])
  | fuel + 1, i =>
    if bs = 0 then
      (Except.error (BatchExc.valueError "range() arg 3 must not be zero"), [])
    else if i < test_cases.length then
      let chunk := pySlice test_cases i bs
      let input_batch := chunk.map TestCase.input
      let ref_batch := chunk.map TestCase.reference_output
      let cand_batch := pySlice candidate_output_list i bs
      let ctx_batch := context_list.map (fun cl => pySlice cl i bs)
      let ev := Event.scoreCall ref_batch cand_batch input_batch ctx_batch
      match sm.run_batch ref_batch cand_batch input_batch ctx_batch with
      | Except.error e => (Except.error (BatchExc.scoringExc e), [ev])
      | Except.ok scores =>
        let rest := scoreChunks sm test_cases candidate_output_list context_list bs fuel (i + bs)
        (rest.1.map (fun tail => scores ++ tail), ev :: rest.2)
    else
      (Except.ok [], [])

/-- The body of the `try` block of `TestSuite.run`, dispatching on the sign of
`batch_size` the way `range(0, n, batch_size)` does: a zero step raises
`ValueError`, a negative step yields an empty range (zero iterations), a
positive step runs the chunk loop. -/
def batchPhase (sm : ScoringMethod ε α) (test_cases : List TestCase)
    (candidate_output_list : List String) (context_list : Option (List String))
    (batch_size : Int) : Except (BatchExc ε) (List α) × List (Event ε) :=
  if batch_size < 0 then
    (Except.ok [], [])
  else
    scoreChunks sm test_cases candidate_output_list context_list batch_size.toNat
      (test_cases.length + 1) 0

/-- The in-memory `TestSuite` object as far as `run` consumes it: the suite
document held in `self.suite`. -/
structure TestSuite where
  suite : TestSuiteRequest
deriving DecidableEq, Repr

/-- Shallow embedding of `TestSuite.run` (testsuite.py lines 76-177), after
`_load_run_data_from_args` has resolved `candidate_output_list` and
`context_list`, and `load_scoring_method` has resolved `sm`.  Validates the
candidate count, reserves the run directory when `save` is set, runs the
chunk loop, and on success pairs candidates with scores by `zip` into the
returned `TestRun`; on a loop exception it logs, cleans up the reserved
directory and raises `ArthurInternalError` chaining the cause.  Returns the
Python outcome paired with the ordered effect trace. -/
def TestSuite.run (ts : TestSuite) (sm : ScoringMethod ε α) (run_name : String)
    (candidate_output_list : List String) (context_list : Option (List String))
    (save : Bool) (batch_size : Int)
    (model_name model_version foundation_model prompt_template : Option String) :
    Except (RunError ε) (TestRun α) × List (Event ε) :=
  if candidate_output_list.length ≠ ts.suite.test_cases.length then
    (Except.error (RunError.userValue
      ("candidate data has " ++ toString candidate_output_list.length ++
        " tests but expected " ++ toString ts.suite.test_cases.length ++ " tests")), [])
  else
    let run_dir : Option RunDir :=
      if save then some ⟨ts.suite.name, run_name⟩ else none
    let dirEvents : List (Event ε) :=
      if save then [Event.createRunDir ts.suite.name run_name] else []
    let res := batchPhase sm ts.suite.test_cases candidate_output_list context_list batch_size
    match res.1 with
    | Except.error e =>
      let cleanupEvents : List (Event ε) :=
        match run_dir with
        | some d => [Event.cleanUpRun d]
        | none => []
      (Except.error (RunError.arthurInternal ("failed to create run " ++ run_name) e),
        dirEvents ++ res.2 ++ (Event.logError e :: cleanupEvents))
    | Except.ok all_scores =>
      let test_case_outputs :=
        (candidate_output_list.zip all_scores).map
          (fun p => TestCaseOutput.mk p.1 p.2)
      let run : TestRun α :=
        ⟨run_name, test_case_outputs, model_name, model_version,
          foundation_model, prompt_template, run_dir⟩
      let saveEvents : List (Event ε) :=
        if save then [Event.saveSuite ts.suite.name, Event.saveRun run_dir] else []
      (Except.ok run, dirEvents ++ res.2 ++ saveEvents)

/-- A tabular data source as `testsuite.py` consumes it: column name to
column values. -/
structure DataFrame where
  col : String → Option (List String)

/-- Modelled from the spec: the tabular branch of `_load_suite_from_args`
(`arthur_bench/run/utils.py`, not among the sources) builds one test case
per row from the named input column, pairing it with the reference column
only when one is requested (spec 4.1). -/
def casesFromDataFrame (df : DataFrame) (input_column : String)
    (reference_column : Option String) : Except UserInputError (List TestCase) :=
  match df.col input_column with
  | none => Except.error ⟨"reference data missing input column"⟩
  | some inputs =>
    match reference_column with
    | none => Except.ok (inputs.map (fun s => TestCase.mk s none))
    | some rc =>
      match df.col rc with
      | none => Except.error ⟨"reference data missing reference column"⟩
      | some refs =>
        Except.ok (List.zipWith (fun s r => TestCase.mk s (some r)) inputs refs)

/-- Modelled from the spec: the explicit-list branch of
`_load_suite_from_args` pairs input texts with reference outputs, the
reference list being consulted only when a reference column/list is
requested (spec 4.1: a method that needs no references ignores the
reference column/list even if supplied). -/
def casesFromLists (inputs : List String) (refs : Option (List String)) :
    List TestCase :=
  match refs with
  | none => inputs.map (fun s => TestCase.mk s none)
  | some rs => List.zipWith (fun s r => TestCase.mk s (some r)) inputs rs

/-- Modelled from the spec: `_load_suite_from_args`
(`arthur_bench/run/utils.py`, not among the sources) resolves the first
usable data source — dataframe, then csv path, then explicit lists — into an
ordered list of test cases, and fails with a `UserInputError` when none is
usable (spec 4.1 and 9: precedence is explicit, first usable source wins).
`readCsv` stands for loading the csv at a path. -/
def loadSuiteFromArgs (readCsv : String → Option DataFrame)
    (reference_data : Option DataFrame) (reference_data_path : Option String)
    (input_column : String) (reference_column : Option String)
    (input_text_list : Option (List String))
    (reference_output_list : Option (List String)) :
    Except UserInputError (List TestCase) :=
  match reference_data with
  | some df => casesFromDataFrame df input_column reference_column
  | none =>
    match reference_data_path with
    | some p =>
      match readCsv p with
      | some df => casesFromDataFrame df input_column reference_column
      | none => Except.error ⟨"invalid reference data path"⟩
    | none =>
      match input_text_list with
      | some inputs =>
        Except.ok (casesFromLists inputs
          (match reference_column with
           | some _ => reference_output_list
           | none => none))
      | none => Except.error ⟨"reference data must be provided"⟩

/-- Shallow embedding of `TestSuite.__init__` (testsuite.py lines 36-74).
`getSuiteIfExists` stands for the persistence lookup `_get_suite_if_exists`;
when it yields a persisted suite the constructor reuses it as-is and builds
nothing, otherwise it nulls the reference column for the `QACorrectness`
method, loads the cases, assembles the suite document and creates the suite
directory.  Returns the constructed object (or the raised user input error)
with the trace of persistence effects. -/
def TestSuite.init (getSuiteIfExists : String → Option TestSuiteRequest)
    (readCsv : String → Option DataFrame) (name : String)
    (scoring_method : ScoringEnum) (description : Option String)
    (reference_data : Option DataFrame) (reference_data_path : Option String)
    (input_column : String) (reference_column : String)
    (input_text_list : Option (List String))
    (reference_output_list : Option (List String)) :
    Except UserInputError TestSuite × List SuiteEvent :=
  match getSuiteIfExists name with
  | some existing => (Except.ok ⟨existing⟩, [])
  | none =>
    let rc : Option String :=
      if scoring_method = ScoringEnum.QACorrectness then none
      else some reference_column
    match loadSuiteFromArgs readCsv reference_data reference_data_path
        input_column rc input_text_list reference_output_list with
    | Except.error e => (Except.error e, [])
    | Except.ok cases =>
      (Except.ok ⟨⟨name, scoring_method, description, cases⟩⟩,
        [SuiteEvent.createSuiteDir name])

universe u1 u2 u3 u4

/-- Index-aligned combination of three lists, truncating at the shortest. -/
def zipWith3 {A : Type u1} {B : Type u2} {C : Type u3} {D : Type u4}
    (f : A → B → C → D) : List A → List B → List C → List D
  | [], _, _ => []
  | _ :: _, [], _ => []
  | _ :: _, _ :: _, [] => []
  | a :: as, b :: bs, c :: cs => f a b c :: zipWith3 f as bs cs

/-- A scoring method that computes its scores pointwise: one score per slice
element, obtained by applying a fixed function to the aligned reference,
candidate and input at each index.  This is the canonical inhabitant of the
interface contract `same length as input, order-preserving` of spec 6. -/
def pointwiseSM (f : Option String → String → String → α) : ScoringMethod ε α :=
  ⟨fun refs cands inputs _ =>
    Except.ok (zipWith3 (fun r c i => f r c i) refs cands inputs)⟩

/-- The score list the chunk loop accumulates for a pointwise scoring method,
in closed form: index-aligned application of `f` over the whole suite. -/
def pointwiseScores (f : Option String → String → String → α)
    (test_cases : List TestCase) (candidate_output_list : List String) : List α :=
  zipWith3 (fun r c i => f r c i) (test_cases.map TestCase.reference_output)
    candidate_output_list (test_cases.map TestCase.input)

/-- The sizes of the candidate slices of the scoring calls in a trace, in
order: one entry per call made to the scoring-method interface. -/
def scoreCallSizes (evs : List (Event ε)) : List Nat :=
  evs.filterMap (fun e => match e with
    | Event.scoreCall _ cands _ _ => some cands.length
    | _ => none)

/-- Exact-match per-case scoring, the example of spec 8: score 1 when the
candidate equals the reference, 0 otherwise. -/
def exactMatch : Option String → String → String → Nat :=
  fun r c _ => if r = some c then 1 else 0

/-- The exact-match scoring method, used by concrete instantiations. -/
def exactMatchSM : ScoringMethod Unit Nat :=
  pointwiseSM exactMatch

/-- A scoring backend that raises on every call. -/
def failingSM : ScoringMethod Unit Nat :=
  ⟨fun _ _ _ _ => Except.error ()⟩

/-- A scoring backend that returns no scores at all, breaking the
one-score-per-element contract. -/
def emptySM : ScoringMethod Unit Nat :=
  ⟨fun _ _ _ _ => Except.ok []⟩

/-- The two-case suite of the worked example in spec 8. -/
def exampleSuite : TestSuite :=
  ⟨⟨"suite", ScoringEnum.otherMethod "exact_match", none,
    [⟨"2+2?", some "4"⟩, ⟨"3+3?", some "6"⟩]⟩⟩

/-- A suite with 65 test cases, for the chunking example of spec 8. -/
def suite65 : TestSuite :=
  ⟨⟨"s65", ScoringEnum.otherMethod "exact_match", none,
    (List.range 65).map (fun i => ⟨toString i, some (toString i)⟩)⟩⟩

/-- 65 candidate outputs aligned with `suite65`. -/
def cands65 : List String :=
  (List.range 65).map toString

section Helpers

theorem zipWith3_nil_left {A : Type u1} {B : Type u2} {C : Type u3} {D : Type u4}
    (f : A → B → C → D) (l2 : List B) (l3 : List C) :
    zipWith3 f [] l2 l3 = [] := by
  cases l2 <;> cases l3 <;> rfl

theorem zipWith3_nil_mid {A : Type u1} {B : Type u2} {C : Type u3} {D : Type u4}
    (f : A → B → C → D) (l1 : List A) (l3 : List C) :
    zipWith3 f l1 [] l3 = [] := by
  cases l1 <;> cases l3 <;> rfl

theorem zipWith3_nil_right {A : Type u1} {B : Type u2} {C : Type u3} {D : Type u4}
    (f : A → B → C → D) (l1 : List A) (l2 : List B) :
    zipWith3 f l1 l2 [] = [] := by
  cases l1 <;> cases l2 <;> rfl

theorem zipWith3_length {A : Type u1} {B : Type u2} {C : Type u3} {D : Type u4}
    (f : A → B → C → D) :
    ∀ (l1 : List A) (l2 : List B) (l3 : List C),
      (zipWith3 f l1 l2 l3).length = min l1.length (min l2.length l3.length)
  | [], l2, l3 => by simp [zipWith3_nil_left]
  | _ :: _, [], _ => by simp [zipWith3_nil_mid]
  | _ :: _, _ :: _, [] => by simp [zipWith3_nil_right]
  | _ :: as, _ :: bs, _ :: cs => by
    simp [zipWith3, zipWith3_length f as bs cs]
    omega

theorem zipWith3_getElem? {A : Type u1} {B : Type u2} {C : Type u3} {D : Type u4}
    (f : A → B → C → D) :
    ∀ (l1 : List A) (l2 : List B) (l3 : List C) (i : Nat) (a : A) (b : B) (c : C),
      l1[i]? = some a → l2[i]? = some b → l3[i]? = some c →
      (zipWith3 f l1 l2 l3)[i]? = some (f a b c)
  | [], _, _, i, _, _, _ => by simp
  | _ :: _, [], _, i, _, _, _ => by simp
  | _ :: _, _ :: _, [], i, _, _, _ => by simp
  | a0 :: as, b0 :: bs, c0 :: cs, 0, a, b, c => by
    intro h1 h2 h3
    simp at h1 h2 h3
    simp [zipWith3, h1, h2, h3]
  | a0 :: as, b0 :: bs, c0 :: cs, i + 1, a, b, c => by
    intro h1 h2 h3
    simp at h1 h2 h3
    simpa [zipWith3] using zipWith3_getElem? f as bs cs i a b c h1 h2 h3

theorem zipWith3_take_drop {A : Type u1} {B : Type u2} {C : Type u3} {D : Type u4}
    (f : A → B → C → D) :
    ∀ (n : Nat) (l1 : List A) (l2 : List B) (l3 : List C),
      zipWith3 f l1 l2 l3 =
        zipWith3 f (l1.take n) (l2.take n) (l3.take n) ++
          zipWith3 f (l1.drop n) (l2.drop n) (l3.drop n)
  | 0, l1, l2, l3 => by simp [zipWith3_nil_left]
  | n + 1, [], l2, l3 => by simp [zipWith3_nil_left]
  | n + 1, _ :: _, [], _ => by simp [zipWith3_nil_mid]
  | n + 1, _ :: _, _ :: _, [] => by simp [zipWith3_nil_right]
  | n + 1, a :: as, b :: bs, c :: cs => by
    simp [zipWith3, zipWith3_take_drop f n as bs cs]

theorem pointwiseSM_run_batch (f : Option String → String → String → α)
    (refs : List (Option String)) (cands inputs : List String)
    (ctx : Option (List String)) :
    (pointwiseSM (ε := ε) f).run_batch refs cands inputs ctx =
      Except.ok (zipWith3 (fun r c i => f r c i) refs cands inputs) := rfl

/-- Any two sufficient fuels agree, so the fuel `batchPhase` supplies is an
artifact of the embedding, not of the loop. -/
theorem scoreChunks_fuel_irrelevant (sm : ScoringMethod ε α)
    (test_cases : List TestCase) (cands : List String)
    (ctx : Option (List String)) (bs : Nat) :
    ∀ fuel1 fuel2 i, test_cases.length - i < fuel1 →
      test_cases.length - i < fuel2 →
      scoreChunks sm test_cases cands ctx bs fuel1 i =
        scoreChunks sm test_cases cands ctx bs fuel2 i := by
  intro fuel1
  induction fuel1 with
  | zero => intro fuel2 i h1 h2; omega
  | succ fuel1 ih =>
    intro fuel2 i h1 h2
    cases fuel2 with
    | zero => omega
    | succ fuel2 =>
      rw [scoreChunks, scoreChunks]
      by_cases hbs : bs = 0
      · rw [if_pos hbs, if_pos hbs]
      by_cases hi : i < test_cases.length
      · rw [if_neg hbs, if_neg hbs, if_pos hi, if_pos hi]
        simp only
        cases sm.run_batch ((pySlice test_cases i bs).map TestCase.reference_output)
            (pySlice cands i bs) ((pySlice test_cases i bs).map TestCase.input)
            (ctx.map (fun cl => pySlice cl i bs)) with
        | error e => rfl
        | ok scores => rw [ih fuel2 (i + bs) (by omega) (by omega)]
      · rw [if_neg hbs, if_neg hbs, if_neg hi, if_neg hi]

theorem scoreChunks_pointwise (f : Option String → String → String → α)
    (test_cases : List TestCase) (cands : List String)
    (ctx : Option (List String)) (bs : Nat) (hbs : 0 < bs) :
    ∀ fuel i, test_cases.length - i < fuel →
      (scoreChunks (ε := ε) (pointwiseSM f) test_cases cands ctx bs fuel i).1 =
        Except.ok (zipWith3 (fun r c j => f r c j)
          ((test_cases.drop i).map TestCase.reference_output) (cands.drop i)
          ((test_cases.drop i).map TestCase.input)) := by
  intro fuel
  induction fuel with
  | zero => intro i h; omega
  | succ fuel ih =>
    intro i hlt
    rw [scoreChunks]
    by_cases hi : i < test_cases.length
    · rw [if_neg (by omega), if_pos hi]
      simp only [pointwiseSM_run_batch]
      rw [ih (i + bs) (by omega)]
      simp only [Except.map]
      rw [zipWith3_take_drop (fun r c j => f r c j) bs
        ((test_cases.drop i).map TestCase.reference_output) (cands.drop i)
        ((test_cases.drop i).map TestCase.input)]
      simp [pySlice, List.map_take, List.map_drop, List.drop_drop,
        Nat.add_comm i bs]
    · rw [if_neg (by omega), if_neg hi]
      rw [List.drop_eq_nil_of_le (by omega)]
      simp [zipWith3_nil_left]

theorem batchPhase_pointwise (f : Option String → String → String → α)
    (test_cases : List TestCase) (cands : List String)
    (ctx : Option (List String)) (batch_size : Int) (hbs : 0 < batch_size) :
    (batchPhase (ε := ε) (pointwiseSM f) test_cases cands ctx batch_size).1 =
      Except.ok (pointwiseScores f test_cases cands) := by
  rw [batchPhase, if_neg (by omega)]
  simpa [pointwiseScores] using
    scoreChunks_pointwise (ε := ε) f test_cases cands ctx batch_size.toNat
      (by omega) (test_cases.length + 1) 0 (by omega)

/-- Every event the chunk loop emits is a scoring call on slices that share
one start index and the loop's batch size across references, candidates,
inputs and (when present) context. -/
theorem scoreChunks_trace_shape (sm : ScoringMethod ε α)
    (test_cases : List TestCase) (cands : List String)
    (ctx : Option (List String)) (bs : Nat) :
    ∀ fuel i ev, ev ∈ (scoreChunks sm test_cases cands ctx bs fuel i).2 → ∃ j,
      ev = Event.scoreCall ((pySlice test_cases j bs).map TestCase.reference_output)
        (pySlice cands j bs) ((pySlice test_cases j bs).map TestCase.input)
        (ctx.map (fun cl => pySlice cl j bs)) := by
  intro fuel
  induction fuel with
  | zero => intro i ev hev; simp [scoreChunks] at hev
  | succ fuel ih =>
    intro i ev hev
    rw [scoreChunks] at hev
    by_cases hbs : bs = 0
    · rw [if_pos hbs] at hev
      simp at hev
    by_cases hi : i < test_cases.length
    · rw [if_neg hbs, if_pos hi] at hev
      simp only at hev
      cases hrb : sm.run_batch ((pySlice test_cases i bs).map TestCase.reference_output)
          (pySlice cands i bs) ((pySlice test_cases i bs).map TestCase.input)
          (ctx.map (fun cl => pySlice cl i bs)) with
      | error e =>
        rw [hrb] at hev
        simp at hev
        exact ⟨i, hev⟩
      | ok scores =>
        rw [hrb] at hev
        simp at hev
        rcases hev with hev | hev
        · exact ⟨i, hev⟩
        · exact ih (i + bs) ev hev
    · rw [if_neg hbs, if_neg hi] at hev
      simp at hev

/-- `TestSuite.run` on a candidate-count mismatch: the `UserValueError`
citing both counts, raised with an empty effect trace. -/
theorem run_eq_of_mismatch (ts : TestSuite) (sm : ScoringMethod ε α)
    (rn : String) (cands : List String) (ctx : Option (List String))
    (save : Bool) (bs : Int) (mn mv fm pt : Option String)
    (hlen : cands.length ≠ ts.suite.test_cases.length) :
    TestSuite.run ts sm rn cands ctx save bs mn mv fm pt =
      (Except.error (RunError.userValue
        ("candidate data has " ++ toString cands.length ++
          " tests but expected " ++ toString ts.suite.test_cases.length ++ " tests")), []) := by
  rw [TestSuite.run, if_pos hlen]

/-- `TestSuite.run` when the batch loop succeeds: the assembled `TestRun` and
the trace `directory reservation, scoring calls, persistence`. -/
theorem run_eq_of_batch_ok (ts : TestSuite) (sm : ScoringMethod ε α)
    (rn : String) (cands : List String) (ctx : Option (List String))
    (save : Bool) (bs : Int) (mn mv fm pt : Option String)
    (scores : List α) (evs : List (Event ε))
    (hlen : cands.length = ts.suite.test_cases.length)
    (hb : batchPhase sm ts.suite.test_cases cands ctx bs = (Except.ok scores, evs)) :
    TestSuite.run ts sm rn cands ctx save bs mn mv fm pt =
      (Except.ok ⟨rn, (cands.zip scores).map (fun p => TestCaseOutput.mk p.1 p.2),
          mn, mv, fm, pt, if save then some ⟨ts.suite.name, rn⟩ else none⟩,
        (if save then [Event.createRunDir ts.suite.name rn] else []) ++ evs ++
          (if save then [Event.saveSuite ts.suite.name,
            Event.saveRun (some ⟨ts.suite.name, rn⟩)] else [])) := by
  rw [TestSuite.run, if_neg (not_not_intro hlen)]
  cases save <;> simp [hb]

/-- `TestSuite.run` when the batch loop raises: the `ArthurInternalError`
naming the run and chaining the cause, and the trace `directory reservation,
scoring calls, error log, cleanup of the reserved directory`. -/
theorem run_eq_of_batch_error (ts : TestSuite) (sm : ScoringMethod ε α)
    (rn : String) (cands : List String) (ctx : Option (List String))
    (save : Bool) (bs : Int) (mn mv fm pt : Option String)
    (e : BatchExc ε) (evs : List (Event ε))
    (hlen : cands.length = ts.suite.test_cases.length)
    (hb : batchPhase sm ts.suite.test_cases cands ctx bs = (Except.error e, evs)) :
    TestSuite.run ts sm rn cands ctx save bs mn mv fm pt =
      (Except.error (RunError.arthurInternal ("failed to create run " ++ rn) e),
        (if save then [Event.createRunDir ts.suite.name rn] else []) ++ evs ++
          (Event.logError e ::
            if save then [Event.cleanUpRun ⟨ts.suite.name, rn⟩] else [])) := by
  rw [TestSuite.run, if_neg (not_not_intro hlen)]
  cases save <;> simp [hb]

theorem zip_map_getElem? {A : Type u1} {B : Type u2} {C : Type u3}
    (g : A → B → C) :
    ∀ (l1 : List A) (l2 : List B) (i : Nat) (a : A) (b : B),
      l1[i]? = some a → l2[i]? = some b →
      ((l1.zip l2).map (fun p => g p.1 p.2))[i]? = some (g a b)
  | [], _, i, _, _ => by simp
  | _ :: _, [], i, _, _ => by simp
  | a0 :: as, b0 :: bs, 0, a, b => by
    intro h1 h2
    simp at h1 h2
    simp [h1, h2]
  | a0 :: as, b0 :: bs, i + 1, a, b => by
    intro h1 h2
    simp at h1 h2
    simpa using zip_map_getElem? g as bs i a b h1 h2

/-- With no reference column requested, the suite loader ignores the supplied
reference output list entirely. -/
theorem loadSuiteFromArgs_no_reference_column
    (readCsv : String → Option DataFrame) (rd : Option DataFrame)
    (rdp : Option String) (ic : String) (itl : Option (List String))
    (rol1 rol2 : Option (List String)) :
    loadSuiteFromArgs readCsv rd rdp ic none itl rol1 =
      loadSuiteFromArgs readCsv rd rdp ic none itl rol2 := by
  cases rd with
  | some df => rfl
  | none =>
    cases rdp with
    | some p => rfl
    | none =>
      cases itl with
      | some inputs => rfl
      | none => rfl

/-- With no reference column requested, every loaded test case carries no
reference output. -/
theorem loadSuiteFromArgs_no_reference_column_refs_none
    (readCsv : String → Option DataFrame) (rd : Option DataFrame)
    (rdp : Option String) (ic : String) (itl : Option (List String))
    (rol : Option (List String)) (cases0 : List TestCase)
    (h : loadSuiteFromArgs readCsv rd rdp ic none itl rol = Except.ok cases0) :
    ∀ tc ∈ cases0, tc.reference_output = none := by
  have fromDF : ∀ df : DataFrame,
      casesFromDataFrame df ic none = Except.ok cases0 →
      ∀ tc ∈ cases0, tc.reference_output = none := by
    intro df hdf tc htc
    rw [casesFromDataFrame] at hdf
    cases hcol : df.col ic with
    | none => rw [hcol] at hdf; exact absurd hdf (by simp)
    | some inputs =>
      rw [hcol] at hdf
      simp at hdf
      subst hdf
      simp at htc
      obtain ⟨s, _, hs⟩ := htc
      rw [← hs]
  cases rd with
  | some df =>
    rw [loadSuiteFromArgs.eq_def] at h
    exact fromDF df h
  | none =>
    cases rdp with
    | some p =>
      rw [loadSuiteFromArgs.eq_def] at h
      simp only [] at h
      cases hcsv : readCsv p with
      | none => rw [hcsv] at h; exact absurd h (by simp)
      | some df => rw [hcsv] at h; exact fromDF df h
    | none =>
      cases itl with
      | none =>
        rw [loadSuiteFromArgs.eq_def] at h
        exact absurd h (by simp)
      | some inputs =>
        rw [loadSuiteFromArgs.eq_def] at h
        simp [casesFromLists] at h
        subst h
        intro tc htc
        simp at htc
        obtain ⟨s, _, hs⟩ := htc
        rw [← hs]

end Helpers

/-- C1: for every run that succeeds with a positive `batch_size` and a
scoring method computing one score per slice element (a pointwise method),
the returned `TestRun` has exactly one output per suite test case, and at
every index `i` the output is the `i`-th candidate and the score is the one
the scoring method computes for index `i`, in suite order. -/
theorem run_success_pairs_each_candidate_with_its_score
    (ts : TestSuite) (f : Option String → String → String → α) (rn : String)
    (cands : List String) (ctx : Option (List String)) (save : Bool)
    (bs : Int) (mn mv fm pt : Option String) (r : TestRun α)
    (hbs : 0 < bs)
    (hok : (TestSuite.run ts (pointwiseSM (ε := ε) f) rn cands ctx save bs
      mn mv fm pt).1 = Except.ok r) :
    r.test_case_outputs.length = ts.suite.test_cases.length ∧
    ∀ i, i < ts.suite.test_cases.length →
      ∃ tc c o, ts.suite.test_cases[i]? = some tc ∧ cands[i]? = some c ∧
        r.test_case_outputs[i]? = some o ∧
        o.output = c ∧ o.score = f tc.reference_output c tc.input := by
  by_cases hlen : cands.length = ts.suite.test_cases.length
  case neg =>
    rw [run_eq_of_mismatch ts _ rn cands ctx save bs mn mv fm pt hlen] at hok
    exact absurd hok (by simp)
  case pos =>
  have hb : batchPhase (pointwiseSM (ε := ε) f) ts.suite.test_cases cands ctx bs =
      (Except.ok (pointwiseScores f ts.suite.test_cases cands),
        (batchPhase (pointwiseSM (ε := ε) f) ts.suite.test_cases cands ctx bs).2) := by
    rw [← batchPhase_pointwise f ts.suite.test_cases cands ctx bs hbs]
  rw [run_eq_of_batch_ok ts _ rn cands ctx save bs mn mv fm pt _ _ hlen hb] at hok
  simp only [Except.ok.injEq] at hok
  subst hok
  constructor
  · simp only [List.length_map, List.length_zip, pointwiseScores, zipWith3_length]
    simp [hlen]
  · intro i hi
    have hi2 : i < cands.length := by omega
    refine ⟨ts.suite.test_cases.get ⟨i, hi⟩, cands.get ⟨i, hi2⟩,
      ⟨cands.get ⟨i, hi2⟩, f (ts.suite.test_cases.get ⟨i, hi⟩).reference_output
        (cands.get ⟨i, hi2⟩) (ts.suite.test_cases.get ⟨i, hi⟩).input⟩,
      ?_, ?_, ?_, rfl, rfl⟩
    · simp
    · simp
    · apply zip_map_getElem?
      · simp
      · unfold pointwiseScores
        apply zipWith3_getElem?
        · simp [List.getElem?_map, List.getElem?_eq_getElem hi]
        · simp [List.getElem?_eq_getElem hi2]
        · simp [List.getElem?_map, List.getElem?_eq_getElem hi]

/-- Concrete instantiation of C1: the worked example of spec 8, exact-match
scoring over the two-case suite. -/
theorem run_success_pairs_each_candidate_with_its_score_witness :
    (⟨"run", [⟨"4", 1⟩, ⟨"six", 0⟩], none, none, none, none,
        some ⟨"suite", "run"⟩⟩ : TestRun Nat).test_case_outputs.length =
      exampleSuite.suite.test_cases.length ∧
    ∀ i, i < exampleSuite.suite.test_cases.length →
      ∃ tc c o, exampleSuite.suite.test_cases[i]? = some tc ∧
        (["4", "six"] : List String)[i]? = some c ∧
        (⟨"run", [⟨"4", 1⟩, ⟨"six", 0⟩], none, none, none, none,
          some ⟨"suite", "run"⟩⟩ : TestRun Nat).test_case_outputs[i]? = some o ∧
        o.output = c ∧ o.score = exactMatch tc.reference_output c tc.input :=
  run_success_pairs_each_candidate_with_its_score (ε := Unit) exampleSuite
    exactMatch "run" ["4", "six"] none true 32 none none none none _
    (by decide) (by rfl)

/-- C2: whenever the resolved candidate list and the suite disagree in
length, `run` raises a `UserValueError` whose message cites both counts, and
its effect trace is empty: no run directory is created and no scoring call
is made for that invocation. -/
theorem run_count_mismatch_raises_user_value_error_with_no_side_effects
    (ts : TestSuite) (sm : ScoringMethod ε α) (rn : String)
    (cands : List String) (ctx : Option (List String)) (save : Bool)
    (bs : Int) (mn mv fm pt : Option String)
    (hlen : cands.length ≠ ts.suite.test_cases.length) :
    TestSuite.run ts sm rn cands ctx save bs mn mv fm pt =
      (Except.error (RunError.userValue
        ("candidate data has " ++ toString cands.length ++
          " tests but expected " ++ toString ts.suite.test_cases.length ++
          " tests")), []) :=
  run_eq_of_mismatch ts sm rn cands ctx save bs mn mv fm pt hlen

/-- Concrete instantiation of C2: one candidate against the two-case example
suite. -/
theorem run_count_mismatch_raises_user_value_error_with_no_side_effects_witness :
    TestSuite.run exampleSuite exactMatchSM "run" ["4"] none true 32
        none none none none =
      (Except.error (RunError.userValue
        "candidate data has 1 tests but expected 2 tests"), []) := by
  have h := run_count_mismatch_raises_user_value_error_with_no_side_effects
    exampleSuite exactMatchSM "run" ["4"] none true 32 none none none none
    (by decide)
  rw [h]
  rfl

/-- C3: when `run_batch` raises on any chunk, `run` returns no partial
results: it raises an `ArthurInternalError` that names the run and chains
the original exception, the failure is logged with the original error, the
run directory is deleted exactly when one was created (save requested), and
the trace holds nothing besides that reservation, the scoring calls, the
log entry and the cleanup — the suite directory and prior runs are
untouched. -/
theorem run_scoring_failure_cleans_up_and_raises_internal_error
    (ts : TestSuite) (sm : ScoringMethod ε α) (rn : String)
    (cands : List String) (ctx : Option (List String)) (save : Bool)
    (bs : Int) (mn mv fm pt : Option String) (e : ε) (evs : List (Event ε))
    (hlen : cands.length = ts.suite.test_cases.length)
    (hb : batchPhase sm ts.suite.test_cases cands ctx bs =
      (Except.error (BatchExc.scoringExc e), evs)) :
    (TestSuite.run ts sm rn cands ctx save bs mn mv fm pt).1 =
      Except.error (RunError.arthurInternal ("failed to create run " ++ rn)
        (BatchExc.scoringExc e)) ∧
    (TestSuite.run ts sm rn cands ctx save bs mn mv fm pt).2 =
      (if save then [Event.createRunDir ts.suite.name rn] else []) ++ evs ++
        (Event.logError (BatchExc.scoringExc e) ::
          if save then [Event.cleanUpRun ⟨ts.suite.name, rn⟩] else []) ∧
    (∀ ev ∈ evs, ∃ refs cb ib xb, ev = Event.scoreCall refs cb ib xb) := by
  rw [run_eq_of_batch_error ts sm rn cands ctx save bs mn mv fm pt _ _ hlen hb]
  refine ⟨rfl, rfl, ?_⟩
  rw [batchPhase] at hb
  by_cases hneg : bs < 0
  · rw [if_pos hneg] at hb
    simp at hb
  · rw [if_neg hneg] at hb
    intro ev hev
    have hev2 : ev ∈ (scoreChunks sm ts.suite.test_cases cands ctx bs.toNat
        (ts.suite.test_cases.length + 1) 0).2 := by
      rw [hb]
      exact hev
    obtain ⟨j, hj⟩ := scoreChunks_trace_shape sm ts.suite.test_cases cands ctx
      bs.toNat (ts.suite.test_cases.length + 1) 0 ev hev2
    exact ⟨_, _, _, _, hj⟩

/-- Concrete instantiation of C3: a backend that raises on the first chunk,
run over the example suite with save requested. -/
theorem run_scoring_failure_cleans_up_and_raises_internal_error_witness :
    (TestSuite.run exampleSuite failingSM "run" ["4", "six"] none true 32
        none none none none).1 =
      Except.error (RunError.arthurInternal ("failed to create run " ++ "run")
        (BatchExc.scoringExc ())) ∧
    (TestSuite.run exampleSuite failingSM "run" ["4", "six"] none true 32
        none none none none).2 =
      (if true then [Event.createRunDir exampleSuite.suite.name "run"] else []) ++
        [Event.scoreCall [some "4", some "6"] ["4", "six"] ["2+2?", "3+3?"] none] ++
        (Event.logError (BatchExc.scoringExc ()) ::
          if true then [Event.cleanUpRun ⟨exampleSuite.suite.name, "run"⟩] else []) ∧
    (∀ ev ∈ [Event.scoreCall (ε := Unit) [some "4", some "6"] ["4", "six"]
        ["2+2?", "3+3?"] none],
      ∃ refs cb ib xb, ev = Event.scoreCall refs cb ib xb) :=
  run_scoring_failure_cleans_up_and_raises_internal_error exampleSuite
    failingSM "run" ["4", "six"] none true 32 none none none none () _
    (by decide) (by rfl)

/-- C4: batching is transparent — for a pointwise scoring method the
returned result is identical for any two positive batch sizes (only the
chunking changes, never the scores or their order); and on a 65-case suite
with `batch_size = 32` exactly three scoring-interface calls happen, with
slices of sizes 32, 32 and 1, whose scores are concatenated in order. -/
theorem run_batch_size_transparent
    (ts : TestSuite) (f : Option String → String → String → α) (rn : String)
    (cands : List String) (ctx : Option (List String)) (save : Bool)
    (b1 b2 : Int) (mn mv fm pt : Option String)
    (h1 : 0 < b1) (h2 : 0 < b2) :
    (TestSuite.run ts (pointwiseSM (ε := ε) f) rn cands ctx save b1
        mn mv fm pt).1 =
      (TestSuite.run ts (pointwiseSM (ε := ε) f) rn cands ctx save b2
        mn mv fm pt).1 ∧
    scoreCallSizes (TestSuite.run suite65 exactMatchSM "r" cands65 none false 32
      none none none none).2 = [32, 32, 1] ∧
    (TestSuite.run suite65 exactMatchSM "r" cands65 none false 32
        none none none none).1 =
      Except.ok ⟨"r", (cands65.zip
        (pointwiseScores exactMatch suite65.suite.test_cases cands65)).map
          (fun p => TestCaseOutput.mk p.1 p.2),
        none, none, none, none, none⟩ := by
  refine ⟨?_, by decide, ?_⟩
  · by_cases hlen : cands.length = ts.suite.test_cases.length
    · have hb1 : batchPhase (pointwiseSM (ε := ε) f) ts.suite.test_cases cands ctx b1 =
          (Except.ok (pointwiseScores f ts.suite.test_cases cands),
            (batchPhase (pointwiseSM (ε := ε) f) ts.suite.test_cases cands ctx b1).2) := by
        rw [← batchPhase_pointwise f ts.suite.test_cases cands ctx b1 h1]
      have hb2 : batchPhase (pointwiseSM (ε := ε) f) ts.suite.test_cases cands ctx b2 =
          (Except.ok (pointwiseScores f ts.suite.test_cases cands),
            (batchPhase (pointwiseSM (ε := ε) f) ts.suite.test_cases cands ctx b2).2) := by
        rw [← batchPhase_pointwise f ts.suite.test_cases cands ctx b2 h2]
      rw [run_eq_of_batch_ok ts _ rn cands ctx save b1 mn mv fm pt _ _ hlen hb1,
        run_eq_of_batch_ok ts _ rn cands ctx save b2 mn mv fm pt _ _ hlen hb2]
    · rw [run_eq_of_mismatch ts _ rn cands ctx save b1 mn mv fm pt hlen,
        run_eq_of_mismatch ts _ rn cands ctx save b2 mn mv fm pt hlen]
  · have hb : batchPhase exactMatchSM suite65.suite.test_cases cands65 none 32 =
        (Except.ok (pointwiseScores exactMatch suite65.suite.test_cases cands65),
          (batchPhase exactMatchSM suite65.suite.test_cases cands65 none 32).2) := by
      rw [exactMatchSM, ← batchPhase_pointwise exactMatch suite65.suite.test_cases
        cands65 none 32 (by omega)]
    have hlen65 : cands65.length = suite65.suite.test_cases.length := by decide
    rw [run_eq_of_batch_ok suite65 exactMatchSM "r" cands65 none false 32
      none none none none _ _ hlen65 hb]
    rfl

/-- Concrete instantiation of C4: batch sizes 1 and 7 agree on the example
suite. -/
theorem run_batch_size_transparent_witness :
    (TestSuite.run exampleSuite (pointwiseSM (ε := Unit) exactMatch) "run"
        ["4", "six"] none true 1 none none none none).1 =
      (TestSuite.run exampleSuite (pointwiseSM (ε := Unit) exactMatch) "run"
        ["4", "six"] none true 7 none none none none).1 ∧
    scoreCallSizes (TestSuite.run suite65 exactMatchSM "r" cands65 none false 32
      none none none none).2 = [32, 32, 1] ∧
    (TestSuite.run suite65 exactMatchSM "r" cands65 none false 32
        none none none none).1 =
      Except.ok ⟨"r", (cands65.zip
        (pointwiseScores exactMatch suite65.suite.test_cases cands65)).map
          (fun p => TestCaseOutput.mk p.1 p.2),
        none, none, none, none, none⟩ :=
  run_batch_size_transparent exampleSuite exactMatch "run" ["4", "six"] none
    true 1 7 none none none none (by decide) (by decide)

/-- C7: every scoring call a run makes receives reference, candidate, input
and — exactly when a context list was resolved — context slices cut at one
shared start index with the loop's batch size, so context stays aligned by
index; when no context is resolved the context argument is absent (the
three-argument form of the interface). -/
theorem run_context_slices_share_chunk_boundaries
    (ts : TestSuite) (sm : ScoringMethod ε α) (rn : String)
    (cands : List String) (ctx : Option (List String)) (save : Bool)
    (bs : Int) (mn mv fm pt : Option String)
    (refs : List (Option String)) (cbatch ibatch : List String)
    (xbatch : Option (List String))
    (hmem : Event.scoreCall refs cbatch ibatch xbatch ∈
      (TestSuite.run ts sm rn cands ctx save bs mn mv fm pt).2) :
    ∃ j, refs = (pySlice ts.suite.test_cases j bs.toNat).map TestCase.reference_output ∧
      cbatch = pySlice cands j bs.toNat ∧
      ibatch = (pySlice ts.suite.test_cases j bs.toNat).map TestCase.input ∧
      xbatch = ctx.map (fun cl => pySlice cl j bs.toNat) := by
  have batchTrace : ∀ ev ∈ (batchPhase sm ts.suite.test_cases cands ctx bs).2,
      ∃ j, ev = Event.scoreCall
        ((pySlice ts.suite.test_cases j bs.toNat).map TestCase.reference_output)
        (pySlice cands j bs.toNat)
        ((pySlice ts.suite.test_cases j bs.toNat).map TestCase.input)
        (ctx.map (fun cl => pySlice cl j bs.toNat)) := by
    rw [batchPhase]
    by_cases hneg : bs < 0
    · rw [if_pos hneg]
      simp
    · rw [if_neg hneg]
      exact fun ev hev => scoreChunks_trace_shape sm ts.suite.test_cases cands
        ctx bs.toNat (ts.suite.test_cases.length + 1) 0 ev hev
  by_cases hlen : cands.length = ts.suite.test_cases.length
  case neg =>
    rw [run_eq_of_mismatch ts sm rn cands ctx save bs mn mv fm pt hlen] at hmem
    simp at hmem
  case pos =>
  have fromBatch : Event.scoreCall refs cbatch ibatch xbatch ∈
      (batchPhase sm ts.suite.test_cases cands ctx bs).2 → ∃ j,
      refs = (pySlice ts.suite.test_cases j bs.toNat).map TestCase.reference_output ∧
      cbatch = pySlice cands j bs.toNat ∧
      ibatch = (pySlice ts.suite.test_cases j bs.toNat).map TestCase.input ∧
      xbatch = ctx.map (fun cl => pySlice cl j bs.toNat) := by
    intro hev
    obtain ⟨j, hj⟩ := batchTrace _ hev
    simp only [Event.scoreCall.injEq] at hj
    exact ⟨j, hj⟩
  cases hres : (batchPhase sm ts.suite.test_cases cands ctx bs).1 with
  | ok scores =>
    have hb : batchPhase sm ts.suite.test_cases cands ctx bs =
        (Except.ok scores, (batchPhase sm ts.suite.test_cases cands ctx bs).2) := by
      rw [← hres]
    rw [run_eq_of_batch_ok ts sm rn cands ctx save bs mn mv fm pt _ _ hlen hb] at hmem
    simp only [List.mem_append] at hmem
    rcases hmem with (hmem | hmem) | hmem
    · cases save <;> simp at hmem
    · exact fromBatch hmem
    · cases save <;> simp at hmem
  | error e =>
    have hb : batchPhase sm ts.suite.test_cases cands ctx bs =
        (Except.error e, (batchPhase sm ts.suite.test_cases cands ctx bs).2) := by
      rw [← hres]
    rw [run_eq_of_batch_error ts sm rn cands ctx save bs mn mv fm pt _ _ hlen hb] at hmem
    simp only [List.mem_append] at hmem
    rcases hmem with (hmem | hmem) | hmem
    · cases save <;> simp at hmem
    · exact fromBatch hmem
    · cases save <;> simp at hmem

/-- Concrete instantiation of C7: with a context list and `batch_size = 1`,
the second scoring call of the example suite carries the context slice with
the same boundaries as the other three slices. -/
theorem run_context_slices_share_chunk_boundaries_witness :
    ∃ j, [some "6"] = (pySlice exampleSuite.suite.test_cases j (1 : Int).toNat).map
        TestCase.reference_output ∧
      ["six"] = pySlice ["4", "six"] j (1 : Int).toNat ∧
      ["3+3?"] = (pySlice exampleSuite.suite.test_cases j (1 : Int).toNat).map
        TestCase.input ∧
      some ["c2"] = (some ["c1", "c2"] : Option (List String)).map
        (fun cl => pySlice cl j (1 : Int).toNat) :=
  run_context_slices_share_chunk_boundaries exampleSuite exactMatchSM "run"
    ["4", "six"] (some ["c1", "c2"]) false 1 none none none none
    [some "6"] ["six"] ["3+3?"] (some ["c2"]) (by decide)

/-- C8: with matching counts and a successful batch loop, the run directory
reservation (when save is requested) precedes every scoring call in the
trace, the suite re-save and the run save follow scoring (when save is
requested), and the assembled `TestRun` is returned in every case — saved
or not. -/
theorem run_save_creates_dir_before_scoring_and_persists_on_success
    (ts : TestSuite) (sm : ScoringMethod ε α) (rn : String)
    (cands : List String) (ctx : Option (List String)) (save : Bool)
    (bs : Int) (mn mv fm pt : Option String)
    (scores : List α) (evs : List (Event ε))
    (hlen : cands.length = ts.suite.test_cases.length)
    (hb : batchPhase sm ts.suite.test_cases cands ctx bs = (Except.ok scores, evs)) :
    TestSuite.run ts sm rn cands ctx save bs mn mv fm pt =
      (Except.ok ⟨rn, (cands.zip scores).map (fun p => TestCaseOutput.mk p.1 p.2),
          mn, mv, fm, pt, if save then some ⟨ts.suite.name, rn⟩ else none⟩,
        (if save then [Event.createRunDir ts.suite.name rn] else []) ++ evs ++
          (if save then [Event.saveSuite ts.suite.name,
            Event.saveRun (some ⟨ts.suite.name, rn⟩)] else [])) :=
  run_eq_of_batch_ok ts sm rn cands ctx save bs mn mv fm pt scores evs hlen hb

/-- Concrete instantiation of C8: the example suite with save requested —
directory creation first, one scoring call, then suite and run saves. -/
theorem run_save_creates_dir_before_scoring_and_persists_on_success_witness :
    TestSuite.run exampleSuite exactMatchSM "run" ["4", "six"] none true 32
        none none none none =
      (Except.ok ⟨"run", ((["4", "six"] : List String).zip [1, 0]).map
          (fun p => TestCaseOutput.mk p.1 p.2),
          none, none, none, none,
          if true then some ⟨exampleSuite.suite.name, "run"⟩ else none⟩,
        (if true then [Event.createRunDir exampleSuite.suite.name "run"] else []) ++
          [Event.scoreCall [some "4", some "6"] ["4", "six"] ["2+2?", "3+3?"] none] ++
          (if true then [Event.saveSuite exampleSuite.suite.name,
            Event.saveRun (some ⟨exampleSuite.suite.name, "run"⟩)] else [])) :=
  run_save_creates_dir_before_scoring_and_persists_on_success exampleSuite
    exactMatchSM "run" ["4", "six"] none true 32 none none none none [1, 0]
    [Event.scoreCall [some "4", some "6"] ["4", "six"] ["2+2?", "3+3?"] none]
    (by decide) (by rfl)

/-- C9: `run` never validates `batch_size`.  With `batch_size = 0` on a
non-empty suite the `ValueError` from the chunking range is caught by the
generic failure handler: the run directory is deleted when one was created
and an `ArthurInternalError` is raised, not a user error.  With a negative
`batch_size` the chunk loop runs zero iterations: no scoring call is made,
no error is raised, and a `TestRun` with empty `test_case_outputs` is
returned (and persisted when save is requested). -/
theorem run_batch_size_unvalidated_zero_and_negative
    (ts : TestSuite) (sm : ScoringMethod ε α) (rn : String)
    (cands : List String) (ctx : Option (List String)) (save : Bool)
    (bsneg : Int) (mn mv fm pt : Option String)
    (hlen : cands.length = ts.suite.test_cases.length)
    (_hne : ts.suite.test_cases ≠ []) (hneg : bsneg < 0) :
    (TestSuite.run ts sm rn cands ctx save 0 mn mv fm pt).1 =
      Except.error (RunError.arthurInternal ("failed to create run " ++ rn)
        (BatchExc.valueError "range() arg 3 must not be zero")) ∧
    (TestSuite.run ts sm rn cands ctx save 0 mn mv fm pt).2 =
      (if save then [Event.createRunDir ts.suite.name rn] else []) ++
        (Event.logError (BatchExc.valueError "range() arg 3 must not be zero") ::
          if save then [Event.cleanUpRun ⟨ts.suite.name, rn⟩] else []) ∧
    TestSuite.run ts sm rn cands ctx save bsneg mn mv fm pt =
      (Except.ok ⟨rn, [], mn, mv, fm, pt,
          if save then some ⟨ts.suite.name, rn⟩ else none⟩,
        (if save then [Event.createRunDir ts.suite.name rn] else []) ++
          (if save then [Event.saveSuite ts.suite.name,
            Event.saveRun (some ⟨ts.suite.name, rn⟩)] else [])) := by
  have hb0 : batchPhase sm ts.suite.test_cases cands ctx 0 =
      (Except.error (BatchExc.valueError "range() arg 3 must not be zero"),
        ([] : List (Event ε))) := by
    simp [batchPhase, scoreChunks]
  have hbneg : batchPhase sm ts.suite.test_cases cands ctx bsneg =
      (Except.ok ([] : List α), ([] : List (Event ε))) := by
    rw [batchPhase, if_pos hneg]
  refine ⟨?_, ?_, ?_⟩
  · rw [run_eq_of_batch_error ts sm rn cands ctx save 0 mn mv fm pt _ _ hlen hb0]
  · rw [run_eq_of_batch_error ts sm rn cands ctx save 0 mn mv fm pt _ _ hlen hb0]
    simp
  · rw [run_eq_of_batch_ok ts sm rn cands ctx save bsneg mn mv fm pt _ _ hlen hbneg]
    simp

/-- Concrete instantiation of C9: batch sizes 0 and -3 over the example
suite with matching candidates. -/
theorem run_batch_size_unvalidated_zero_and_negative_witness :
    (TestSuite.run exampleSuite exactMatchSM "run" ["4", "six"] none true 0
        none none none none).1 =
      Except.error (RunError.arthurInternal ("failed to create run " ++ "run")
        (BatchExc.valueError "range() arg 3 must not be zero")) ∧
    (TestSuite.run exampleSuite exactMatchSM "run" ["4", "six"] none true 0
        none none none none).2 =
      (if true then [Event.createRunDir exampleSuite.suite.name "run"] else []) ++
        (Event.logError (BatchExc.valueError "range() arg 3 must not be zero") ::
          if true then [Event.cleanUpRun ⟨exampleSuite.suite.name, "run"⟩] else []) ∧
    TestSuite.run exampleSuite exactMatchSM "run" ["4", "six"] none true (-3)
        none none none none =
      (Except.ok ⟨"run", [], none, none, none, none,
          if true then some ⟨exampleSuite.suite.name, "run"⟩ else none⟩,
        (if true then [Event.createRunDir exampleSuite.suite.name "run"] else []) ++
          (if true then [Event.saveSuite exampleSuite.suite.name,
            Event.saveRun (some ⟨exampleSuite.suite.name, "run"⟩)] else [])) :=
  run_batch_size_unvalidated_zero_and_negative exampleSuite exactMatchSM "run"
    ["4", "six"] none true (-3) none none none none (by decide) (by decide)
    (by decide)

/-- C10: `run` never checks that the scoring method returned one score per
case — when the collected scores are fewer than the candidates, the final
`zip` silently truncates: a `TestRun` with fewer outputs than suite cases
is assembled, persisted when save is requested, and returned with no
error. -/
theorem run_short_score_list_truncates_outputs
    (ts : TestSuite) (sm : ScoringMethod ε α) (rn : String)
    (cands : List String) (ctx : Option (List String)) (save : Bool)
    (bs : Int) (mn mv fm pt : Option String)
    (scores : List α) (evs : List (Event ε))
    (hlen : cands.length = ts.suite.test_cases.length)
    (hb : batchPhase sm ts.suite.test_cases cands ctx bs = (Except.ok scores, evs))
    (hshort : scores.length < cands.length) :
    ∃ r, (TestSuite.run ts sm rn cands ctx save bs mn mv fm pt).1 = Except.ok r ∧
      r.test_case_outputs.length = scores.length ∧
      r.test_case_outputs.length < ts.suite.test_cases.length ∧
      (TestSuite.run ts sm rn cands ctx save bs mn mv fm pt).2 =
        (if save then [Event.createRunDir ts.suite.name rn] else []) ++ evs ++
          (if save then [Event.saveSuite ts.suite.name,
            Event.saveRun (some ⟨ts.suite.name, rn⟩)] else []) := by
  rw [run_eq_of_batch_ok ts sm rn cands ctx save bs mn mv fm pt scores evs hlen hb]
  refine ⟨_, rfl, ?_, ?_, rfl⟩
  · simp only [List.length_map, List.length_zip]
    omega
  · simp only [List.length_map, List.length_zip]
    omega

/-- Concrete instantiation of C10: a backend returning no scores at all
over the example suite — the run succeeds with zero outputs and is saved. -/
theorem run_short_score_list_truncates_outputs_witness :
    ∃ r, (TestSuite.run exampleSuite emptySM "run" ["4", "six"] none true 32
        none none none none).1 = Except.ok r ∧
      r.test_case_outputs.length = ([] : List Nat).length ∧
      r.test_case_outputs.length < exampleSuite.suite.test_cases.length ∧
      (TestSuite.run exampleSuite emptySM "run" ["4", "six"] none true 32
          none none none none).2 =
        (if true then [Event.createRunDir exampleSuite.suite.name "run"] else []) ++
          [Event.scoreCall [some "4", some "6"] ["4", "six"] ["2+2?", "3+3?"] none] ++
          (if true then [Event.saveSuite exampleSuite.suite.name,
            Event.saveRun (some ⟨exampleSuite.suite.name, "run"⟩)] else []) :=
  run_short_score_list_truncates_outputs exampleSuite emptySM "run"
    ["4", "six"] none true 32 none none none none []
    [Event.scoreCall [some "4", some "6"] ["4", "six"] ["2+2?", "3+3?"] none]
    (by decide) (by rfl) (by decide)

/-- C5: constructing a `TestSuite` under a name for which a persisted suite
exists skips building entirely: the persisted suite is reused as-is (same
test cases, same original scoring method), the scoring-method, data-source
and description arguments of the new construction are ignored, and no suite
directory is created. -/
theorem init_existing_suite_reused_as_is
    (getSuiteIfExists : String → Option TestSuiteRequest)
    (readCsv : String → Option DataFrame) (name : String)
    (scoring_method : ScoringEnum) (description : Option String)
    (reference_data : Option DataFrame) (reference_data_path : Option String)
    (input_column reference_column : String)
    (input_text_list reference_output_list : Option (List String))
    (s : TestSuiteRequest) (hexists : getSuiteIfExists name = some s) :
    TestSuite.init getSuiteIfExists readCsv name scoring_method description
      reference_data reference_data_path input_column reference_column
      input_text_list reference_output_list = (Except.ok ⟨s⟩, []) := by
  rw [TestSuite.init.eq_def, hexists]

/-- Concrete instantiation of C5: reconstructing the example suite under its
existing name with entirely different scoring method, data and description. -/
theorem init_existing_suite_reused_as_is_witness :
    TestSuite.init (fun n => if n = "suite" then some exampleSuite.suite else none)
      (fun _ => none) "suite" ScoringEnum.QACorrectness (some "other description")
      none (some "other.csv") "input" "reference_output"
      (some ["different input"]) (some ["different reference"]) =
      (Except.ok ⟨exampleSuite.suite⟩, []) :=
  init_existing_suite_reused_as_is
    (fun n => if n = "suite" then some exampleSuite.suite else none)
    (fun _ => none) "suite" ScoringEnum.QACorrectness (some "other description")
    none (some "other.csv") "input" "reference_output"
    (some ["different input"]) (some ["different reference"])
    exampleSuite.suite (by rfl)

/-- C6: when the chosen scoring method needs no reference outputs
(`QACorrectness`), a freshly built suite ignores both the reference column
and a supplied reference output list: the construction result does not
depend on them, and every built test case carries no reference output. -/
theorem init_qacorrectness_ignores_references
    (getSuiteIfExists : String → Option TestSuiteRequest)
    (readCsv : String → Option DataFrame) (name : String)
    (description : Option String) (reference_data : Option DataFrame)
    (reference_data_path : Option String) (input_column : String)
    (rc1 rc2 : String) (itl : Option (List String))
    (rol1 rol2 : Option (List String))
    (hnone : getSuiteIfExists name = none) :
    TestSuite.init getSuiteIfExists readCsv name ScoringEnum.QACorrectness
        description reference_data reference_data_path input_column rc1
        itl rol1 =
      TestSuite.init getSuiteIfExists readCsv name ScoringEnum.QACorrectness
        description reference_data reference_data_path input_column rc2
        itl rol2 ∧
    ∀ ts evs, TestSuite.init getSuiteIfExists readCsv name
        ScoringEnum.QACorrectness description reference_data
        reference_data_path input_column rc1 itl rol1 = (Except.ok ts, evs) →
      ∀ tc ∈ ts.suite.test_cases, tc.reference_output = none := by
  constructor
  · rw [TestSuite.init.eq_def, TestSuite.init.eq_def, hnone]
    simp only [if_true]
    rw [loadSuiteFromArgs_no_reference_column readCsv reference_data
      reference_data_path input_column itl rol1 rol2]
  · intro ts evs hinit
    rw [TestSuite.init.eq_def, hnone] at hinit
    simp only [if_true] at hinit
    cases hload : loadSuiteFromArgs readCsv reference_data reference_data_path
        input_column none itl rol1 with
    | error e =>
      rw [hload] at hinit
      exact absurd hinit (by simp)
    | ok cases0 =>
      rw [hload] at hinit
      simp at hinit
      obtain ⟨hts, _⟩ := hinit
      have hcases : ts.suite.test_cases = cases0 := by
        rw [← hts]
      rw [hcases]
      exact loadSuiteFromArgs_no_reference_column_refs_none readCsv
        reference_data reference_data_path input_column itl rol1 cases0 hload

/-- Concrete instantiation of C6: explicit input lists with and without a
reference list give the same `QACorrectness` suite, with no references. -/
theorem init_qacorrectness_ignores_references_witness :
    TestSuite.init (fun _ => none) (fun _ => none) "qa" ScoringEnum.QACorrectness
        none none none "input" "reference_output"
        (some ["q1", "q2"]) (some ["a1", "a2"]) =
      TestSuite.init (fun _ => none) (fun _ => none) "qa" ScoringEnum.QACorrectness
        none none none "input" "other_column" (some ["q1", "q2"]) none ∧
    ∀ ts evs, TestSuite.init (fun _ => none) (fun _ => none) "qa"
        ScoringEnum.QACorrectness none none none "input" "reference_output"
        (some ["q1", "q2"]) (some ["a1", "a2"]) = (Except.ok ts, evs) →
      ∀ tc ∈ ts.suite.test_cases, tc.reference_output = none :=
  init_qacorrectness_ignores_references (fun _ => none) (fun _ => none) "qa"
    none none none "input" "reference_output" "other_column"
    (some ["q1", "q2"]) (some ["a1", "a2"]) none (by rfl)

end ArthurBench
